import Mathlib

set_option maxHeartbeats 1000000

/-!
Shallow embedding of the two setup scripts of stafne/hp_sleep_mac:
`setup_default_config.py` (standalone config bootstrapper) and
`setup_hp_py_sleep.py` (release installer that also bootstraps the config).
File contents are modelled as JSON documents; the filesystem is an
association list of path/document pairs plus a list of directories.
Write failures are injected through a list of paths on which a write raises.
-/

/-- A JSON value, covering exactly the shapes used by the default-config
literals in both scripts. -/
inductive JVal where
  | jstr : String → JVal
  | jbool : Bool → JVal
  | jnull : JVal
  | jarr : List JVal → JVal
  | jobj : List (String × JVal) → JVal

/-- Substring containment on character lists: `pat` occurs contiguously. -/
def listContains (pat : List Char) : List Char → Bool
  | [] => pat.isEmpty
  | c :: rest => pat.isPrefixOf (c :: rest) || listContains pat rest

/-- Python substring containment: `pat in s`. -/
def pyInStr (pat s : String) : Bool := listContains pat.data s.data

/-- Python `s.endswith(suf)`. -/
def pyEndsWith (s suf : String) : Bool := suf.data.isSuffixOf s.data

/-- `os.path.expanduser("~")`: the user's home directory, kept abstract. -/
def homeDir : String := "~"

/-- `os.path.join(home_dir, "Library", "Application Support", "HP Py Sleep")`. -/
def configDir : String := homeDir ++ "/Library/Application Support/HP Py Sleep"

/-- `os.path.join(config_dir, "hp_processor_config.json")`. -/
def configFile : String := configDir ++ "/hp_processor_config.json"

/-- `os.path.join(config_dir, "default_config_template.json")`. -/
def templateFile : String := configDir ++ "/default_config_template.json"

/-- Filesystem state: files as a path/document association list (first
binding wins) and a list of existing directories. -/
structure FS where
  files : List (String × JVal)
  dirs : List String

/-- The empty filesystem: a fresh base directory with nothing in it. -/
def FS.empty : FS := ⟨[], []⟩

/-- `os.path.exists` on the modelled state. -/
def FS.pathExists (fs : FS) (p : String) : Bool :=
  (fs.files.lookup p).isSome || fs.dirs.contains p

/-- `os.makedirs(p, exist_ok=True)` / `Path.mkdir(parents=True, exist_ok=True)`. -/
def FS.makedirs (fs : FS) (p : String) : FS :=
  if fs.dirs.contains p then fs else { fs with dirs := p :: fs.dirs }

/-- `open(p, "w"); json.dump(v, f)` as a whole-file write. Paths listed in
`failPaths` raise an `OSError`, modelled as `none`; a failed write leaves
the state unchanged. -/
def FS.writeFile (fs : FS) (p : String) (v : JVal) (failPaths : List String) :
    Option FS :=
  if failPaths.contains p then none
  else some { fs with files := (p, v) :: fs.files }

/-- The `default_config` literal of `setup_default_config.py` (lines 56-87),
as a key/value list; `ts` is `datetime.now().isoformat()`. -/
def default_config_sdc (ts : String) : List (String × JVal) :=
  [("app_name", .jstr "HP Py Sleep"),
   ("version", .jstr "1.0.0"),
   ("created_by", .jstr "setup_default_config.py"),
   ("created_timestamp", .jstr ts),
   ("window_geometry", .jstr ""),
   ("selected_signals", .jarr []),
   ("event_types", .jobj [("Start", .jstr "green"), ("Stop", .jstr "red"),
      ("Error", .jstr "orange")]),
   ("state_types", .jobj [("Recording", .jstr "blue"), ("Paused", .jstr "yellow"),
      ("Processing", .jstr "purple")]),
   ("trace_assignments", .jobj []),
   ("saved_montages", .jarr []),
   ("last_montage_name", .jnull),
   ("last_h5_path_var", .jstr ""),
   ("auto_output", .jbool false),
   ("load_mode", .jstr "all"),
   ("max_samples", .jstr "1000"),
   ("autoscale", .jstr "resize"),
   ("anti_alias", .jbool false),
   ("remove_dc", .jbool false),
   ("window_size", .jstr "5 min"),
   ("use_icons", .jbool true),
   ("dark_mode", .jbool false),
   ("note", .jstr "This configuration file was created by the HP Py Sleep setup script")]

/-- The `default_config` literal of `setup_hp_py_sleep.py` (lines 190-221). -/
def default_config_hp (ts : String) : List (String × JVal) :=
  [("app_name", .jstr "HP Py Sleep"),
   ("version", .jstr "1.0.0"),
   ("created_by", .jstr "setup_hp_py_sleep.py"),
   ("created_timestamp", .jstr ts),
   ("window_geometry", .jstr ""),
   ("selected_signals", .jarr []),
   ("event_types", .jobj [("Start", .jstr "green"), ("Stop", .jstr "red"),
      ("Error", .jstr "orange")]),
   ("state_types", .jobj [("Recording", .jstr "blue"), ("Paused", .jstr "yellow"),
      ("Processing", .jstr "purple")]),
   ("trace_assignments", .jobj []),
   ("saved_montages", .jarr []),
   ("last_montage_name", .jnull),
   ("last_h5_path_var", .jstr ""),
   ("auto_output", .jbool false),
   ("load_mode", .jstr "all"),
   ("max_samples", .jstr "1000"),
   ("autoscale", .jstr "resize"),
   ("anti_alias", .jbool false),
   ("remove_dc", .jbool false),
   ("window_size", .jstr "5 min"),
   ("use_icons", .jbool true),
   ("dark_mode", .jbool false),
   ("note", .jstr "This configuration file was created by the HP Py Sleep setup script")]

/-- `create_default_config()` of `setup_default_config.py` (lines 12-113).
The existing-config branch only reads the file for display (best-effort,
non-mutating) and returns `True`. A config-file write failure returns
`False`; a template-file write failure is caught by the nested
`try`/`except` at lines 101-107 and the function still returns `True`. -/
def create_default_config (fs : FS) (ts : String) (failPaths : List String) :
    Bool × FS :=
  let fs1 := if fs.pathExists configDir then fs else fs.makedirs configDir
  if fs1.pathExists configFile then (true, fs1)
  else
    match fs1.writeFile configFile (.jobj (default_config_sdc ts)) failPaths with
    | none => (false, fs1)
    | some fs2 =>
      if fs2.pathExists templateFile then (true, fs2)
      else
        match fs2.writeFile templateFile (.jobj (default_config_sdc ts)) failPaths with
        | none => (true, fs2)
        | some fs3 => (true, fs3)

/-- `setup_default_config()` of `setup_hp_py_sleep.py` (lines 168-243).
`config_dir.mkdir` runs unconditionally; the whole body sits in one
`try`/`except`, so a failure of either file write returns `False`
(with state as mutated so far). -/
def setup_default_config (fs : FS) (ts : String) (failPaths : List String) :
    Bool × FS :=
  let fs1 := fs.makedirs configDir
  if fs1.pathExists configFile then (true, fs1)
  else
    match fs1.writeFile configFile (.jobj (default_config_hp ts)) failPaths with
    | none => (false, fs1)
    | some fs2 =>
      if fs2.pathExists templateFile then (true, fs2)
      else
        match fs2.writeFile templateFile (.jobj (default_config_hp ts)) failPaths with
        | none => (false, fs2)
        | some fs3 => (true, fs3)

/-- A release asset: `{name, size, browser_download_url}`. -/
structure Asset where
  name : String
  size : Nat
  browser_download_url : String
deriving DecidableEq

/-- The asset-selection loop of `download_release_asset` (lines 56-59):
first asset whose name contains the pattern and ends with `.zip`. -/
def assetMatches (pattern : String) (a : Asset) : Bool :=
  pyInStr pattern a.name && pyEndsWith a.name ".zip"

/-- `target_asset` after the loop at lines 54-59 of `setup_hp_py_sleep.py`. -/
def findAsset (pattern : String) : List Asset → Option Asset
  | [] => none
  | a :: rest => if assetMatches pattern a then some a else findAsset pattern rest

/-- Outcome of the HTTP transfer inside `download_release_asset`. -/
inductive NetResult where
  | ok
  | failAtGet
  | failMidStream

/-- `download_release_asset(release_data, pattern)` (lines 49-101): returns
the temp-file path or `None`, paired with the list of temporary files
created during the run. The temp file is created (line 75) only after an
asset matched and the download `GET` succeeded; a mid-stream failure leaves
the partially written temp file behind. -/
def download_release_asset (assets : List Asset) (pattern : String)
    (tempName : String) (net : NetResult) : Option String × List String :=
  match findAsset pattern assets with
  | none => (none, [])
  | some _ =>
    match net with
    | .failAtGet => (none, [])
    | .failMidStream => (none, [tempName])
    | .ok => (some tempName, [tempName])

/-- `extract_and_install(zip_file_path)` (lines 103-166), from the point
where extraction into the temp directory succeeded. `entries` is
`Path(temp_dir).rglob("*")` in traversal order; `app_files` keeps those
matching `*.app`. Zero matches fail before the platform gate; otherwise
the first match is installed (on darwin). Returns success and the bundle
installed. -/
def extract_and_install (platform : String) (entries : List String) :
    Bool × Option String :=
  let app_files := entries.filter (fun p => pyEndsWith p ".app")
  match app_files with
  | [] => (false, none)
  | source_app :: _ =>
    if platform = "darwin" then (true, some source_app)
    else (false, none)

/-- Stage outcomes feeding `main()` of `setup_hp_py_sleep.py`. -/
structure Stages where
  platformDarwin : Bool
  requestsAvailable : Bool
  userConfirmed : Bool
  releaseOk : Bool
  downloadOk : Bool
  installOk : Bool

/-- `main()` of `setup_hp_py_sleep.py` (lines 245-351): a linear chain that
aborts on the first failing stage; after a successful install the config
bootstrap runs (threaded through the filesystem state) but its result is
only warned about — `main` returns `True` regardless (lines 303-346). -/
def main_flow (s : Stages) (fs : FS) (ts : String) (failPaths : List String) :
    Bool × FS :=
  if !s.platformDarwin then (false, fs)
  else if !s.requestsAvailable then (false, fs)
  else if !s.userConfirmed then (false, fs)
  else if !s.releaseOk then (false, fs)
  else if !s.downloadOk then (false, fs)
  else if s.installOk then
    let r := setup_default_config fs ts failPaths
    (true, r.2)
  else (false, fs)

/-- How the `__main__` guard of `setup_hp_py_sleep.py` (lines 353-362) ends. -/
inductive RunEnd where
  | completed (success : Bool)
  | keyboardInterrupt
  | unexpectedError

/-- The process exit code chosen at lines 353-362: `0` iff `main()` returned
`True`; `KeyboardInterrupt` and unexpected exceptions exit `1`. -/
def scriptExitCode : RunEnd → Nat
  | .completed true => 0
  | .completed false => 1
  | .keyboardInterrupt => 1
  | .unexpectedError => 1

/-! ### Supporting lemmas -/

/-- `makedirs` touches only the directory list, never file contents. -/
theorem FS.makedirs_files (fs : FS) (p : String) : (fs.makedirs p).files = fs.files := by
  unfold FS.makedirs; split <;> rfl

/-- `makedirs` on a different path does not make an absent path present. -/
theorem pathExists_makedirs_mono (fs : FS) (p d : String) (hne : (p == d) = false)
    (h : fs.pathExists p = false) : (fs.makedirs d).pathExists p = false := by
  unfold FS.makedirs
  split
  · exact h
  · unfold FS.pathExists at h ⊢
    simp only [List.contains_cons, hne, Bool.false_or]
    exact h

/-- Writing one file does not make a different absent path present. -/
theorem pathExists_write_cons (fs : FS) (p q : String) (v : JVal)
    (hne : (p == q) = false) (h : fs.pathExists p = false) :
    (FS.mk ((q, v) :: fs.files) fs.dirs).pathExists p = false := by
  unfold FS.pathExists at h ⊢
  simp only [List.lookup_cons, hne]
  exact h

/-- `create_default_config` with a pre-existing config file: early return
`True` from the exists branch, files untouched. -/
theorem create_default_config_of_exists (fs : FS) (ts : String) (fp : List String)
    (h : (fs.files.lookup configFile).isSome = true) :
    (create_default_config fs ts fp).1 = true ∧
    (create_default_config fs ts fp).2.files = fs.files := by
  unfold create_default_config
  simp only []
  generalize hG : (if fs.pathExists configDir then fs else fs.makedirs configDir) = fs1
  have hf : fs1.files = fs.files := by
    rw [← hG]; split
    · rfl
    · exact FS.makedirs_files fs configDir
  have hex : fs1.pathExists configFile = true := by
    simp only [FS.pathExists, hf, Bool.or_eq_true]
    exact Or.inl h
  rw [if_pos hex]
  exact ⟨rfl, hf⟩

/-- `setup_default_config` with a pre-existing config file: early return
`True`, files untouched. -/
theorem setup_default_config_of_exists (fs : FS) (ts : String) (fp : List String)
    (h : (fs.files.lookup configFile).isSome = true) :
    (setup_default_config fs ts fp).1 = true ∧
    (setup_default_config fs ts fp).2.files = fs.files := by
  unfold setup_default_config
  simp only []
  have hf : (fs.makedirs configDir).files = fs.files := FS.makedirs_files fs configDir
  have hex : (fs.makedirs configDir).pathExists configFile = true := by
    simp only [FS.pathExists, hf, Bool.or_eq_true]
    exact Or.inl h
  rw [if_pos hex]
  exact ⟨rfl, hf⟩

/-- A failing config-file write makes `create_default_config` return `False`. -/
theorem create_default_config_config_write_fails (fs : FS) (ts : String) (fp : List String)
    (hc : fs.pathExists configFile = false) (hm : configFile ∈ fp) :
    (create_default_config fs ts fp).1 = false := by
  unfold create_default_config
  simp only []
  generalize hG : (if fs.pathExists configDir then fs else fs.makedirs configDir) = fs1
  have h1 : fs1.pathExists configFile = false := by
    rw [← hG]; split
    · exact hc
    · exact pathExists_makedirs_mono fs configFile configDir (by decide) hc
  rw [if_neg (by simp [h1])]
  unfold FS.writeFile
  rw [if_pos (by simp [hm])]

/-- Once the config-file write itself succeeds, `create_default_config`
returns `True`, whatever happens to the template write (its nested
`try`/`except` swallows a failure). -/
theorem create_default_config_config_write_ok (fs : FS) (ts : String) (fp : List String)
    (hc : fs.pathExists configFile = false) (hm : configFile ∉ fp) :
    (create_default_config fs ts fp).1 = true := by
  unfold create_default_config
  simp only []
  generalize hG : (if fs.pathExists configDir then fs else fs.makedirs configDir) = fs1
  have h1 : fs1.pathExists configFile = false := by
    rw [← hG]; split
    · exact hc
    · exact pathExists_makedirs_mono fs configFile configDir (by decide) hc
  rw [if_neg (by simp [h1])]
  unfold FS.writeFile
  rw [if_neg (by simp [hm])]
  simp only []
  split
  · rfl
  · split <;> rfl

/-- A failing config-file write makes `setup_default_config` return `False`. -/
theorem setup_default_config_config_write_fails (fs : FS) (ts : String) (fp : List String)
    (hc : fs.pathExists configFile = false) (hm : configFile ∈ fp) :
    (setup_default_config fs ts fp).1 = false := by
  unfold setup_default_config
  simp only []
  have h1 : (fs.makedirs configDir).pathExists configFile = false :=
    pathExists_makedirs_mono fs configFile configDir (by decide) hc
  rw [if_neg (by simp [h1])]
  unfold FS.writeFile
  rw [if_pos (by simp [hm])]

/-- In `setup_default_config` the template write sits in the same
`try`/`except` as everything else, so its failure returns `False`. -/
theorem setup_default_config_template_write_fails (fs : FS) (ts : String) (fp : List String)
    (hc : fs.pathExists configFile = false) (ht : fs.pathExists templateFile = false)
    (hm : configFile ∉ fp) (hmt : templateFile ∈ fp) :
    (setup_default_config fs ts fp).1 = false := by
  unfold setup_default_config
  simp only []
  have h1 : (fs.makedirs configDir).pathExists configFile = false :=
    pathExists_makedirs_mono fs configFile configDir (by decide) hc
  have h2 : (fs.makedirs configDir).pathExists templateFile = false :=
    pathExists_makedirs_mono fs templateFile configDir (by decide) ht
  rw [if_neg (by simp [h1])]
  unfold FS.writeFile
  rw [if_neg (by simp [hm])]
  simp only []
  have h3 : (FS.mk ((configFile, JVal.jobj (default_config_hp ts)) ::
        (fs.makedirs configDir).files) (fs.makedirs configDir).dirs).pathExists
      templateFile = false :=
    pathExists_write_cons (fs.makedirs configDir) templateFile configFile _ (by decide) h2
  rw [if_neg (by simp [h3])]
  rw [if_pos (by simp [hmt])]

/-! ### Claims -/

/-- Claim C1: for every filesystem state in which the config file already
exists (with any contents), running either bootstrapper
(`create_default_config` or `setup_default_config`) leaves the config
file's bytes unchanged — indeed leaves every file unchanged — and
returns success (`True`). -/
theorem c1_existing_config_preserved (fs : FS) (ts : String) (fp : List String)
    (c : JVal) (h : fs.files.lookup configFile = some c) :
    (create_default_config fs ts fp).1 = true ∧
    (create_default_config fs ts fp).2.files = fs.files ∧
    (create_default_config fs ts fp).2.files.lookup configFile = some c ∧
    (setup_default_config fs ts fp).1 = true ∧
    (setup_default_config fs ts fp).2.files = fs.files ∧
    (setup_default_config fs ts fp).2.files.lookup configFile = some c := by
  have h' : (fs.files.lookup configFile).isSome = true := by rw [h]; rfl
  obtain ⟨a1, a2⟩ := create_default_config_of_exists fs ts fp h'
  obtain ⟨b1, b2⟩ := setup_default_config_of_exists fs ts fp h'
  exact ⟨a1, a2, by rw [a2, h], b1, b2, by rw [b2, h]⟩

/-- Witness for C1 at a concrete one-file state. -/
theorem c1_existing_config_preserved_witness :
    (FS.mk [(configFile, JVal.jnull)] []).files.lookup configFile = some JVal.jnull ∧
    (create_default_config (FS.mk [(configFile, JVal.jnull)] []) "t" []).1 = true ∧
    (create_default_config (FS.mk [(configFile, JVal.jnull)] []) "t" []).2.files =
      [(configFile, JVal.jnull)] ∧
    (setup_default_config (FS.mk [(configFile, JVal.jnull)] []) "t" []).1 = true := by
  refine ⟨rfl, ?_, ?_, ?_⟩
  · exact (c1_existing_config_preserved (FS.mk [(configFile, JVal.jnull)] []) "t" [] JVal.jnull rfl).1
  · exact (c1_existing_config_preserved (FS.mk [(configFile, JVal.jnull)] []) "t" [] JVal.jnull rfl).2.1
  · exact (c1_existing_config_preserved (FS.mk [(configFile, JVal.jnull)] []) "t" [] JVal.jnull rfl).2.2.2.1

/-- Claim C3: with no matching asset, `download_release_asset` returns
`None` and creates no temporary file, whatever the network would have
done. -/
theorem c3_no_match_no_temp_file (assets : List Asset) (pattern tempName : String)
    (net : NetResult) (h : findAsset pattern assets = none) :
    download_release_asset assets pattern tempName net = (none, []) := by
  unfold download_release_asset
  rw [h]

/-- Witness for C3 on a release whose only asset is not a ZIP. -/
theorem c3_no_match_no_temp_file_witness :
    findAsset "hp_py_sleep" [Asset.mk "readme.txt" 3 "u3"] = none ∧
    download_release_asset [Asset.mk "readme.txt" 3 "u3"] "hp_py_sleep" "/tmp/x.zip"
      NetResult.ok = (none, []) :=
  ⟨rfl, c3_no_match_no_temp_file _ _ _ _ rfl⟩

/-- Counterexample to claim C5 as stated: on a fresh state where writing
the template file fails (`failPaths = [templateFile]`), the template write
is attempted and raises — the template is absent afterwards while the
config was written — yet `create_default_config` still returns `True`,
not `False`. -/
theorem c5_write_failure_counterexample :
    (create_default_config FS.empty "t" [templateFile]).1 = true ∧
    (create_default_config FS.empty "t" [templateFile]).2.files.lookup configFile =
      some (JVal.jobj (default_config_sdc "t")) ∧
    (create_default_config FS.empty "t" [templateFile]).2.files.lookup templateFile =
      none :=
  ⟨rfl, rfl, rfl⟩

/-- Claim C5 as amended: write errors are caught (both bootstrappers are
total and return a Boolean). A config-file write failure surfaces
`success = false` in both; a template-file write failure surfaces
`success = false` in `setup_default_config` (single `try`/`except`) but is
swallowed by `create_default_config`, which still returns `True`. -/
theorem c5_write_failure_amended (fs : FS) (ts : String) (fp : List String)
    (hc : fs.pathExists configFile = false) :
    (configFile ∈ fp →
      (create_default_config fs ts fp).1 = false ∧
      (setup_default_config fs ts fp).1 = false) ∧
    (configFile ∉ fp → templateFile ∈ fp →
      (create_default_config fs ts fp).1 = true ∧
      (fs.pathExists templateFile = false → (setup_default_config fs ts fp).1 = false)) := by
  refine ⟨fun hm => ⟨create_default_config_config_write_fails fs ts fp hc hm,
    setup_default_config_config_write_fails fs ts fp hc hm⟩,
    fun hm hmt => ⟨create_default_config_config_write_ok fs ts fp hc hm,
      fun ht => setup_default_config_template_write_fails fs ts fp hc ht hm hmt⟩⟩

/-- Witness for the amended C5 at concrete failing-path sets. -/
theorem c5_write_failure_amended_witness :
    (create_default_config FS.empty "t" [configFile]).1 = false ∧
    (setup_default_config FS.empty "t" [configFile]).1 = false ∧
    (create_default_config FS.empty "t" [templateFile]).1 = true ∧
    (setup_default_config FS.empty "t" [templateFile]).1 = false := by
  have h1 := (c5_write_failure_amended FS.empty "t" [configFile] rfl).1 (by decide)
  have h2 := (c5_write_failure_amended FS.empty "t" [templateFile] rfl).2
    (by decide) (by decide)
  exact ⟨h1.1, h1.2, h2.1, h2.2 rfl⟩

/-- Counterexample to claim C7 as stated: the interrupt exit status is not
distinct from every other outcome — it equals the exit status of an
ordinary failure. -/
theorem c7_interrupt_exit_counterexample :
    scriptExitCode RunEnd.keyboardInterrupt = scriptExitCode (RunEnd.completed false) :=
  rfl

/-- Claim C7 as amended: a user-initiated interrupt exits with status 1,
distinct from the success status 0 but equal to the failure status;
exit code 0 means success and 1 means failure or cancellation. -/
theorem c7_interrupt_exit_amended :
    scriptExitCode RunEnd.keyboardInterrupt = 1 ∧
    scriptExitCode (RunEnd.completed true) = 0 ∧
    scriptExitCode (RunEnd.completed false) = 1 ∧
    scriptExitCode RunEnd.unexpectedError = 1 ∧
    scriptExitCode RunEnd.keyboardInterrupt ≠ scriptExitCode (RunEnd.completed true) :=
  ⟨rfl, rfl, rfl, rfl, by decide⟩

/-- Claim C8: running either bootstrapper twice from a fresh base directory
is idempotent — both runs report success and the file contents after the
second run equal those after the first, for any pair of run timestamps. -/
theorem c8_bootstrapper_idempotent (ts1 ts2 : String) :
    (create_default_config FS.empty ts1 []).1 = true ∧
    (create_default_config (create_default_config FS.empty ts1 []).2 ts2 []).1 = true ∧
    (create_default_config (create_default_config FS.empty ts1 []).2 ts2 []).2.files =
      (create_default_config FS.empty ts1 []).2.files ∧
    (setup_default_config FS.empty ts1 []).1 = true ∧
    (setup_default_config (setup_default_config FS.empty ts1 []).2 ts2 []).1 = true ∧
    (setup_default_config (setup_default_config FS.empty ts1 []).2 ts2 []).2.files =
      (setup_default_config FS.empty ts1 []).2.files :=
  ⟨rfl, rfl, rfl, rfl, rfl, rfl⟩

/-- Counterexample to claim C9 as stated: with equal timestamps the two
default-config literals are not the same document — they disagree on the
value of the `created_by` key. -/
theorem c9_default_config_literals_counterexample :
    (default_config_sdc "2025-01-01T00:00:00").lookup "created_by" ≠
    (default_config_hp "2025-01-01T00:00:00").lookup "created_by" := by
  simp [default_config_sdc, default_config_hp, List.lookup]

/-- Claim C9 as amended: the two literals have the same key list and, given
equal timestamps, identical values on every key except `created_by`, whose
values name the constructing script. -/
theorem c9_default_config_literals_amended (ts : String) :
    (default_config_sdc ts).map Prod.fst = (default_config_hp ts).map Prod.fst ∧
    (default_config_sdc ts).filter (fun kv => !(kv.1 == "created_by")) =
      (default_config_hp ts).filter (fun kv => !(kv.1 == "created_by")) ∧
    (default_config_sdc ts).lookup "created_by" =
      some (JVal.jstr "setup_default_config.py") ∧
    (default_config_hp ts).lookup "created_by" =
      some (JVal.jstr "setup_hp_py_sleep.py") :=
  ⟨rfl, rfl, rfl, rfl⟩

/-- Claim C10: when the config file exists but the template file is absent,
neither bootstrapper creates the template — template creation happens only
on the fresh-config path, so a missing template is never backfilled. -/
theorem c10_missing_template_not_backfilled (fs : FS) (ts : String) (fp : List String)
    (c : JVal) (hc : fs.files.lookup configFile = some c)
    (ht : fs.files.lookup templateFile = none) :
    (create_default_config fs ts fp).2.files.lookup templateFile = none ∧
    (setup_default_config fs ts fp).2.files.lookup templateFile = none := by
  have h' : (fs.files.lookup configFile).isSome = true := by rw [hc]; rfl
  obtain ⟨-, a2⟩ := create_default_config_of_exists fs ts fp h'
  obtain ⟨-, b2⟩ := setup_default_config_of_exists fs ts fp h'
  exact ⟨by rw [a2]; exact ht, by rw [b2]; exact ht⟩

/-- Witness for C10 at a concrete state holding only a config file. -/
theorem c10_missing_template_not_backfilled_witness :
    (FS.mk [(configFile, JVal.jnull)] []).files.lookup templateFile = none ∧
    (create_default_config (FS.mk [(configFile, JVal.jnull)] []) "t" []).2.files.lookup
      templateFile = none ∧
    (setup_default_config (FS.mk [(configFile, JVal.jnull)] []) "t" []).2.files.lookup
      templateFile = none := by
  refine ⟨rfl, ?_, ?_⟩
  · exact (c10_missing_template_not_backfilled (FS.mk [(configFile, JVal.jnull)] []) "t" [] JVal.jnull rfl rfl).1
  · exact (c10_missing_template_not_backfilled (FS.mk [(configFile, JVal.jnull)] []) "t" [] JVal.jnull rfl rfl).2

/-- The asset list of the worked example in the spec: sizes and URLs are
immaterial to selection. -/
def c2Assets : List Asset :=
  [Asset.mk "foo.zip" 1 "u1", Asset.mk "hp_py_sleep-1.2.0.zip" 2 "u2",
   Asset.mk "readme.txt" 3 "u3"]

/-- Claim C2: asset selection picks the first asset in list order whose
name contains the pattern and ends with `.zip` (it agrees with
`List.find?` of that predicate), and on the worked example
`["foo.zip", "hp_py_sleep-1.2.0.zip", "readme.txt"]` with pattern
`"hp_py_sleep"` it returns the second entry. -/
theorem c2_asset_selection_first_match :
    (∀ (pattern : String) (assets : List Asset),
      findAsset pattern assets = assets.find? (assetMatches pattern)) ∧
    findAsset "hp_py_sleep" c2Assets = c2Assets[1]? := by
  constructor
  · intro pattern assets
    induction assets with
    | nil => rfl
    | cons a rest ih =>
      cases hb : assetMatches pattern a with
      | false =>
        rw [findAsset, if_neg (by simp [hb]), List.find?_cons_of_neg _ (by simp [hb]), ih]
      | true =>
        rw [findAsset, if_pos hb, List.find?_cons_of_pos _ hb]
  · rfl

/-- Claim C4: with two or more `.app` entries in the extracted tree the
installer does not error and installs exactly the first match in traversal
order; with zero matches it fails. -/
theorem c4_multiple_bundles_first_installed :
    (∀ entries : List String,
      2 ≤ (entries.filter (fun p => pyEndsWith p ".app")).length →
      (extract_and_install "darwin" entries).1 = true ∧
      (extract_and_install "darwin" entries).2 =
        (entries.filter (fun p => pyEndsWith p ".app"))[0]?) ∧
    (∀ entries : List String,
      entries.filter (fun p => pyEndsWith p ".app") = [] →
      extract_and_install "darwin" entries = (false, none)) := by
  constructor
  · intro entries h2
    unfold extract_and_install
    simp only []
    cases hf : entries.filter (fun p => pyEndsWith p ".app") with
    | nil => rw [hf] at h2; simp at h2
    | cons a rest =>
      simp
  · intro entries h
    unfold extract_and_install
    simp only []
    rw [h]

/-- Witness for C4 on a tree with two bundles and on a tree with none. -/
theorem c4_multiple_bundles_first_installed_witness :
    2 ≤ ((["A.app", "B.app", "x.txt"] : List String).filter
      (fun p => pyEndsWith p ".app")).length ∧
    (extract_and_install "darwin" ["A.app", "B.app", "x.txt"]).1 = true ∧
    (extract_and_install "darwin" ["A.app", "B.app", "x.txt"]).2 = some "A.app" ∧
    extract_and_install "darwin" ["x.txt"] = (false, none) := by
  refine ⟨by decide, (c4_multiple_bundles_first_installed.1 _ (by decide)).1, ?_,
    c4_multiple_bundles_first_installed.2 ["x.txt"] (by decide)⟩
  have h := (c4_multiple_bundles_first_installed.1 ["A.app", "B.app", "x.txt"]
    (by decide)).2
  simpa using h

/-- Claim C6: in the top-level flow, a config-bootstrap failure after a
successful install still yields overall success and exit code 0; the
failure of any other stage aborts the flow (the filesystem is left
untouched — the bootstrap never runs) and reports failure with exit
code 1. -/
theorem c6_config_failure_soft :
    (∀ (s : Stages) (fs : FS) (ts : String) (fp : List String),
      s.platformDarwin = true → s.requestsAvailable = true → s.userConfirmed = true →
      s.releaseOk = true → s.downloadOk = true → s.installOk = true →
      (setup_default_config fs ts fp).1 = false →
      (main_flow s fs ts fp).1 = true ∧
      scriptExitCode (RunEnd.completed (main_flow s fs ts fp).1) = 0) ∧
    (∀ (s : Stages) (fs : FS) (ts : String) (fp : List String),
      (s.platformDarwin && s.requestsAvailable && s.userConfirmed && s.releaseOk &&
        s.downloadOk && s.installOk) = false →
      main_flow s fs ts fp = (false, fs) ∧
      scriptExitCode (RunEnd.completed (main_flow s fs ts fp).1) = 1) := by
  constructor
  · intro s fs ts fp h1 h2 h3 h4 h5 h6 _
    simp [main_flow, h1, h2, h3, h4, h5, h6, scriptExitCode]
  · intro s fs ts fp h
    cases h1 : s.platformDarwin <;> cases h2 : s.requestsAvailable <;>
      cases h3 : s.userConfirmed <;> cases h4 : s.releaseOk <;>
      cases h5 : s.downloadOk <;> cases h6 : s.installOk <;>
      simp_all [main_flow, scriptExitCode]

/-- Witness for C6: a failing config write after a successful install
still yields overall success; a failed install stage yields failure and
leaves the filesystem untouched. -/
theorem c6_config_failure_soft_witness :
    (setup_default_config FS.empty "t" [configFile]).1 = false ∧
    (main_flow (Stages.mk true true true true true true) FS.empty "t" [configFile]).1 =
      true ∧
    main_flow (Stages.mk true true true true true false) FS.empty "t" [] =
      (false, FS.empty) := by
  refine ⟨rfl, ?_, ?_⟩
  · exact (c6_config_failure_soft.1 (Stages.mk true true true true true true)
      FS.empty "t" [configFile] rfl rfl rfl rfl rfl rfl rfl).1
  · exact (c6_config_failure_soft.2 (Stages.mk true true true true true false)
      FS.empty "t" [] rfl).1
